import Mathlib

/-!
Verification of the dice-banking game engine ("You Blew It").

Shallow embedding of the scoring evaluator (`scorer.py`), the turn and game
drivers (`simulate.py`, `game.py`), the hardcoded strategies
(`strategies/*.py`) and the gym adapters (`gym_env/you_blew_it_v2.py`,
`gym_env/you_blew_it_1v1.py`), together with theorems settling the spec
claims about them.
-/

/-! ## Scorer (`src/scorer.py`)

The Python `Scorer` keeps `values[1..6]` (face counts of the roll passed to
`__init__`) and `combos[1..6]` (flags set once, at construction, to
`values[i] >= 3`).  We embed it as a record with the six counts `v1..v6`
and the six flags `k1..k6`. -/

structure Scorer where
  v1 : Nat
  v2 : Nat
  v3 : Nat
  v4 : Nat
  v5 : Nat
  v6 : Nat
  k1 : Bool
  k2 : Bool
  k3 : Bool
  k4 : Bool
  k5 : Bool
  k6 : Bool
deriving DecidableEq, Repr

/-- `Scorer.__init__`: count each face of the dice list, then set each combo
flag to `count >= 3`. -/
def scorerInit (dice : List Nat) : Scorer :=
  { v1 := dice.count 1
    v2 := dice.count 2
    v3 := dice.count 3
    v4 := dice.count 4
    v5 := dice.count 5
    v6 := dice.count 6
    k1 := decide (3 ≤ dice.count 1)
    k2 := decide (3 ≤ dice.count 2)
    k3 := decide (3 ≤ dice.count 3)
    k4 := decide (3 ≤ dice.count 4)
    k5 := decide (3 ≤ dice.count 5)
    k6 := decide (3 ≤ dice.count 6)
    }

/-- `self.values[loc]` for `loc` in 1..6 (other indices are never read on the
paths we model). -/
def getV (s : Scorer) (loc : Nat) : Nat :=
  match loc with
  | 1 => s.v1
  | 2 => s.v2
  | 3 => s.v3
  | 4 => s.v4
  | 5 => s.v5
  | 6 => s.v6
  | _ => 0

/-- `self.values[loc] = x`. -/
def setV (s : Scorer) (loc : Nat) (x : Nat) : Scorer :=
  match loc with
  | 1 => { s with v1 := x }
  | 2 => { s with v2 := x }
  | 3 => { s with v3 := x }
  | 4 => { s with v4 := x }
  | 5 => { s with v5 := x }
  | 6 => { s with v6 := x }
  | _ => s

def hasThousandCombo (s : Scorer) : Bool := s.k1
def hasTwoHundredCombo (s : Scorer) : Bool := s.k2
def hasThreeHundredCombo (s : Scorer) : Bool := s.k3
def hasFourHundredCombo (s : Scorer) : Bool := s.k4
def hasFiveHundredCombo (s : Scorer) : Bool := s.k5
def hasSixHundredCombo (s : Scorer) : Bool := s.k6
def hasOnes (s : Scorer) : Bool := s.v1 != 0
def hasFifties (s : Scorer) : Bool := s.v5 != 0
def numOnes (s : Scorer) : Nat := s.v1
def numFifties (s : Scorer) : Nat := s.v5

/-- `Scorer._make_remaining_dice`: list each face once per remaining count,
ascending face order. -/
def makeRemainingDice (s : Scorer) : List Nat :=
  List.replicate s.v1 1 ++ List.replicate s.v2 2 ++ List.replicate s.v3 3 ++
    List.replicate s.v4 4 ++ List.replicate s.v5 5 ++ List.replicate s.v6 6

/-- `Scorer.num_remaining_dice`. -/
def numRemainingDice (s : Scorer) : Nat :=
  s.v1 + s.v2 + s.v3 + s.v4 + s.v5 + s.v6

/-- `Scorer._take_gen(loc, num_to_take)`.  The Python raises
`AssertionError("Removed dice that were not available")` when fewer than
`num_to_take` dice of face `loc` remain — modelled as `none` (the check
happens before any mutation, so failure leaves the scorer unchanged).
Otherwise the count is decremented and the points are: the triple value when
`num_to_take == 3` (1000 for face 1, `loc*100` otherwise — note this branch
is checked FIRST, so `take_ones(3)` yields 1000 and `take_fifties(3)` yields
500), else `100*n` for face 1, else `50*n` for face 5; any other call is an
`AssertionError` (`none`). -/
def takeGen (s : Scorer) (loc : Nat) (numToTake : Nat) : Option (Nat × Scorer) :=
  if getV s loc < numToTake then none
  else
    let s' := setV s loc (getV s loc - numToTake)
    if numToTake = 3 then some (if loc = 1 then 1000 else loc * 100, s')
    else if loc = 1 then some (100 * numToTake, s')
    else if loc = 5 then some (50 * numToTake, s')
    else none

def takeThousandCombo (s : Scorer) : Option (Nat × Scorer) := takeGen s 1 3
def takeTwoHundredCombo (s : Scorer) : Option (Nat × Scorer) := takeGen s 2 3
def takeThreeHundredCombo (s : Scorer) : Option (Nat × Scorer) := takeGen s 3 3
def takeFourHundredCombo (s : Scorer) : Option (Nat × Scorer) := takeGen s 4 3
def takeFiveHundredCombo (s : Scorer) : Option (Nat × Scorer) := takeGen s 5 3
def takeSixHundredCombo (s : Scorer) : Option (Nat × Scorer) := takeGen s 6 3
def takeOne (s : Scorer) : Option (Nat × Scorer) := takeGen s 1 1
def takeOnes (s : Scorer) (n : Nat) : Option (Nat × Scorer) := takeGen s 1 n
def takeFifty (s : Scorer) : Option (Nat × Scorer) := takeGen s 5 1
def takeFifties (s : Scorer) (n : Nat) : Option (Nat × Scorer) := takeGen s 5 n

/-- `Scorer.is_blown`: note the Python checks the 200/300/400/600 combo flags,
`has_ones` and `has_fifties`, but not the 500-combo flag (a triple of fives
implies `has_fifties` anyway). -/
def isBlown (s : Scorer) : Bool :=
  !(hasTwoHundredCombo s || hasThreeHundredCombo s || hasFourHundredCombo s ||
    hasSixHundredCombo s || hasOnes s || hasFifties s)

/-- One guarded take inside `Scorer.raw_score`: the chain state carries the
accumulated score, the `remaining_dice` variable (updated only by executed
takes) and the current scorer. -/
def rsStep (cond : Scorer → Bool) (take : Scorer → Option (Nat × Scorer)) :
    Option (Nat × List Nat × Scorer) → Option (Nat × List Nat × Scorer)
  | none => none
  | some (score, rem, s) =>
    if cond s then
      match take s with
      | none => none
      | some (pts, s') => some (score + pts, makeRemainingDice s', s')
    else some (score, rem, s)

/-- `Scorer.raw_score`, exactly in the Python's order: thousand combo, 600,
500, 400, 300 combos, then all remaining ones, then the 200 combo, then all
remaining fives.  Each guard is re-read from the mutated scorer. -/
def rawScore (s : Scorer) : Option (Nat × Nat) :=
  if isBlown s then some ((makeRemainingDice s).length, 0)
  else
    match rsStep hasFifties (fun t => takeFifties t (numFifties t))
      (rsStep hasTwoHundredCombo takeTwoHundredCombo
      (rsStep hasOnes (fun t => takeOnes t (numOnes t))
      (rsStep hasThreeHundredCombo takeThreeHundredCombo
      (rsStep hasFourHundredCombo takeFourHundredCombo
      (rsStep hasFiveHundredCombo takeFiveHundredCombo
      (rsStep hasSixHundredCombo takeSixHundredCombo
      (rsStep hasThousandCombo takeThousandCombo
        (some (0, ([] : List Nat), s))))))))) with
    | none => none
    | some (score, rem, _) => some (rem.length, score)

/-- The amended ordering for C7: same frozen-flag chain as `rawScore`, but
with the 200 combo taken before the loose ones (thousand combo first, then
triples from highest face to lowest, then singles) — the spec's stated
priority order.  Proven extensionally equal to `rawScore`. -/
def rawScoreAmended (s : Scorer) : Option (Nat × Nat) :=
  if isBlown s then some ((makeRemainingDice s).length, 0)
  else
    match rsStep hasFifties (fun t => takeFifties t (numFifties t))
      (rsStep hasOnes (fun t => takeOnes t (numOnes t))
      (rsStep hasTwoHundredCombo takeTwoHundredCombo
      (rsStep hasThreeHundredCombo takeThreeHundredCombo
      (rsStep hasFourHundredCombo takeFourHundredCombo
      (rsStep hasFiveHundredCombo takeFiveHundredCombo
      (rsStep hasSixHundredCombo takeSixHundredCombo
      (rsStep hasThousandCombo takeThousandCombo
        (some (0, ([] : List Nat), s))))))))) with
    | none => none
    | some (score, rem, _) => some (rem.length, score)

/-- Modelled from the spec's words for claim C7 (refinement comparison only,
not code): apply every *currently available* scoring group greedily — the
thousand combo first, then triples from highest face to lowest, then
singles — with availability recomputed from the live counts after every
take, until no group is left; return (leftover dice, total score). -/
def specRawScoreGreedyAux : Nat → Scorer → Nat → Nat × Nat
  | 0, s, acc => (numRemainingDice s, acc)
  | fuel + 1, s, acc =>
    if 3 ≤ s.v1 then specRawScoreGreedyAux fuel { s with v1 := s.v1 - 3 } (acc + 1000)
    else if 3 ≤ s.v6 then specRawScoreGreedyAux fuel { s with v6 := s.v6 - 3 } (acc + 600)
    else if 3 ≤ s.v5 then specRawScoreGreedyAux fuel { s with v5 := s.v5 - 3 } (acc + 500)
    else if 3 ≤ s.v4 then specRawScoreGreedyAux fuel { s with v4 := s.v4 - 3 } (acc + 400)
    else if 3 ≤ s.v3 then specRawScoreGreedyAux fuel { s with v3 := s.v3 - 3 } (acc + 300)
    else if 3 ≤ s.v2 then specRawScoreGreedyAux fuel { s with v2 := s.v2 - 3 } (acc + 200)
    else if 1 ≤ s.v1 then specRawScoreGreedyAux fuel { s with v1 := s.v1 - 1 } (acc + 100)
    else if 1 ≤ s.v5 then specRawScoreGreedyAux fuel { s with v5 := s.v5 - 1 } (acc + 50)
    else (numRemainingDice s, acc)

def specRawScoreGreedy (dice : List Nat) : Nat × Nat :=
  specRawScoreGreedyAux dice.length (scorerInit dice) 0

/-! ## Actions and strategies

`Scorer.apply_actions` looks the action name up with `getattr` and calls the
zero-argument method; the strategies only ever emit the seven names below. -/

inductive TakeAction
  | takeThousandCombo
  | takeTwoHundredCombo
  | takeThreeHundredCombo
  | takeFourHundredCombo
  | takeFiveHundredCombo
  | takeSixHundredCombo
  | takeOne
  | takeFifty
deriving DecidableEq, Repr

def applyAct (s : Scorer) : TakeAction → Option (Nat × Scorer)
  | .takeThousandCombo => takeThousandCombo s
  | .takeTwoHundredCombo => takeTwoHundredCombo s
  | .takeThreeHundredCombo => takeThreeHundredCombo s
  | .takeFourHundredCombo => takeFourHundredCombo s
  | .takeFiveHundredCombo => takeFiveHundredCombo s
  | .takeSixHundredCombo => takeSixHundredCombo s
  | .takeOne => takeOne s
  | .takeFifty => takeFifty s

/-- `Scorer.apply_actions`: apply each action in order on the same scorer,
summing the scores; a failed take is the fatal `AssertionError` (`none`). -/
def applyActs : Scorer → List TakeAction → Option (Nat × Scorer)
  | s, [] => some (0, s)
  | s, a :: rest =>
    match applyAct s a with
    | none => none
    | some (pts, s') =>
      match applyActs s' rest with
      | none => none
      | some (tot, s'') => some (pts + tot, s'')

/-- The `Strategy` protocol of `game.py`/`simulate.py`: `should_roll` and
`actions`. -/
structure Strat where
  shouldRoll : Nat → Nat → Nat → Nat → Bool
  actions : List Nat → List TakeAction

/-- `BasicStrategy.actions` (`strategies/basic_strategy.py`), with explicit
fuel for the recursion on the remaining dice (the Python recursion is bounded
by the dice count; `basicActions` supplies ample fuel).  Note the
`has_two_hundred_combo` branch performs the take but appends NO action string,
so the returned list stays empty and the recursion guard `if actions:` fails. -/
def basicActionsF : Nat → List Nat → List TakeAction
  | 0, _ => []
  | fuel + 1, dice =>
    let sc := scorerInit dice
    let branch : List TakeAction × List Nat :=
      if isBlown sc then ([], dice)
      else if hasThousandCombo sc then
        match takeThousandCombo sc with
        | some (_, s') => ([.takeThousandCombo], makeRemainingDice s')
        | none => ([], dice)
      else if hasSixHundredCombo sc then
        match takeSixHundredCombo sc with
        | some (_, s') => ([.takeSixHundredCombo], makeRemainingDice s')
        | none => ([], dice)
      else if hasFiveHundredCombo sc then
        match takeFiveHundredCombo sc with
        | some (_, s') => ([.takeFiveHundredCombo], makeRemainingDice s')
        | none => ([], dice)
      else if hasFourHundredCombo sc then
        match takeFourHundredCombo sc with
        | some (_, s') => ([.takeFourHundredCombo], makeRemainingDice s')
        | none => ([], dice)
      else if hasThreeHundredCombo sc then
        match takeThreeHundredCombo sc with
        | some (_, s') => ([.takeThreeHundredCombo], makeRemainingDice s')
        | none => ([], dice)
      else if hasOnes sc then
        match takeOnes sc (numOnes sc) with
        | some (_, s') => (List.replicate (numOnes sc) .takeOne, makeRemainingDice s')
        | none => ([], dice)
      else if hasTwoHundredCombo sc then
        -- the take happens, but no action is appended (the Python slip)
        match takeTwoHundredCombo sc with
        | some (_, s') => ([], makeRemainingDice s')
        | none => ([], dice)
      else if hasFifties sc then
        match takeFifties sc (numFifties sc) with
        | some (_, s') => (List.replicate (numFifties sc) .takeFifty, makeRemainingDice s')
        | none => ([], dice)
      else ([], dice)  -- Python: raise AssertionError, unreachable when not blown
    if branch.1 = [] then branch.1
    else branch.1 ++ basicActionsF fuel branch.2

def basicActions (dice : List Nat) : List TakeAction :=
  basicActionsF (dice.length + 1) dice

/-- `MomsStrategy.actions` (`strategies/moms_strategy.py`): same chain as
`BasicStrategy` through the 300 combo and the ones, then at depth 0 a single
fifty (once per turn), then — at depth 0 only — the silent 200-combo take
(no action appended). -/
def momsActionsF : Nat → List Nat → Nat → Bool → List TakeAction
  | 0, _, _, _ => []
  | fuel + 1, dice, depth, fiftyTaken =>
    let sc := scorerInit dice
    let branch : List TakeAction × List Nat × Bool :=
      if isBlown sc then ([], dice, fiftyTaken)
      else if hasThousandCombo sc then
        match takeThousandCombo sc with
        | some (_, s') => ([.takeThousandCombo], makeRemainingDice s', fiftyTaken)
        | none => ([], dice, fiftyTaken)
      else if hasSixHundredCombo sc then
        match takeSixHundredCombo sc with
        | some (_, s') => ([.takeSixHundredCombo], makeRemainingDice s', fiftyTaken)
        | none => ([], dice, fiftyTaken)
      else if hasFiveHundredCombo sc then
        match takeFiveHundredCombo sc with
        | some (_, s') => ([.takeFiveHundredCombo], makeRemainingDice s', fiftyTaken)
        | none => ([], dice, fiftyTaken)
      else if hasFourHundredCombo sc then
        match takeFourHundredCombo sc with
        | some (_, s') => ([.takeFourHundredCombo], makeRemainingDice s', fiftyTaken)
        | none => ([], dice, fiftyTaken)
      else if hasThreeHundredCombo sc then
        match takeThreeHundredCombo sc with
        | some (_, s') => ([.takeThreeHundredCombo], makeRemainingDice s', fiftyTaken)
        | none => ([], dice, fiftyTaken)
      else if hasOnes sc then
        match takeOnes sc (numOnes sc) with
        | some (_, s') => (List.replicate (numOnes sc) .takeOne, makeRemainingDice s', fiftyTaken)
        | none => ([], dice, fiftyTaken)
      else if depth = 0 && !fiftyTaken && hasFifties sc then
        match takeFifties sc 1 with
        | some (_, s') => ([.takeFifty], makeRemainingDice s', true)
        | none => ([], dice, fiftyTaken)
      else if hasTwoHundredCombo sc && depth = 0 then
        -- take performed, no action appended (same slip as BasicStrategy)
        match takeTwoHundredCombo sc with
        | some (_, s') => ([], makeRemainingDice s', fiftyTaken)
        | none => ([], dice, fiftyTaken)
      else ([], dice, fiftyTaken)
    if branch.1 = [] then branch.1
    else branch.1 ++ momsActionsF fuel branch.2.1 (depth + 1) branch.2.2

def momsActions (dice : List Nat) : List TakeAction :=
  momsActionsF (dice.length + 1) dice 0 false

/-- `EvansStrategy.actions` (`strategies/evans_strategy.py`): like Mom's, but
at depth 0 on a full roll it takes a single one (then never takes ones again
that turn), and the silent 200-combo take is last. -/
def evansActionsF : Nat → List Nat → Nat → Bool → Bool → List TakeAction
  | 0, _, _, _, _ => []
  | fuel + 1, dice, depth, fiftyTaken, oneTaken =>
    let sc := scorerInit dice
    let branch : List TakeAction × List Nat × Bool × Bool :=
      if isBlown sc then ([], dice, fiftyTaken, oneTaken)
      else if hasThousandCombo sc then
        match takeThousandCombo sc with
        | some (_, s') => ([.takeThousandCombo], makeRemainingDice s', fiftyTaken, oneTaken)
        | none => ([], dice, fiftyTaken, oneTaken)
      else if hasSixHundredCombo sc then
        match takeSixHundredCombo sc with
        | some (_, s') => ([.takeSixHundredCombo], makeRemainingDice s', fiftyTaken, oneTaken)
        | none => ([], dice, fiftyTaken, oneTaken)
      else if hasFiveHundredCombo sc then
        match takeFiveHundredCombo sc with
        | some (_, s') => ([.takeFiveHundredCombo], makeRemainingDice s', fiftyTaken, oneTaken)
        | none => ([], dice, fiftyTaken, oneTaken)
      else if hasFourHundredCombo sc then
        match takeFourHundredCombo sc with
        | some (_, s') => ([.takeFourHundredCombo], makeRemainingDice s', fiftyTaken, oneTaken)
        | none => ([], dice, fiftyTaken, oneTaken)
      else if hasThreeHundredCombo sc then
        match takeThreeHundredCombo sc with
        | some (_, s') => ([.takeThreeHundredCombo], makeRemainingDice s', fiftyTaken, oneTaken)
        | none => ([], dice, fiftyTaken, oneTaken)
      else if depth = 0 && dice.length = 6 && hasOnes sc then
        match takeOnes sc 1 with
        | some (_, s') => ([.takeOne], makeRemainingDice s', fiftyTaken, true)
        | none => ([], dice, fiftyTaken, oneTaken)
      else if hasOnes sc && !oneTaken then
        match takeOnes sc (numOnes sc) with
        | some (_, s') => (List.replicate (numOnes sc) .takeOne, makeRemainingDice s', fiftyTaken, oneTaken)
        | none => ([], dice, fiftyTaken, oneTaken)
      else if depth = 0 && !fiftyTaken && hasFifties sc then
        match takeFifties sc 1 with
        | some (_, s') => ([.takeFifty], makeRemainingDice s', true, oneTaken)
        | none => ([], dice, fiftyTaken, oneTaken)
      else if hasTwoHundredCombo sc && depth = 0 then
        match takeTwoHundredCombo sc with
        | some (_, s') => ([], makeRemainingDice s', fiftyTaken, oneTaken)
        | none => ([], dice, fiftyTaken, oneTaken)
      else ([], dice, fiftyTaken, oneTaken)
    if branch.1 = [] then branch.1
    else branch.1 ++ evansActionsF fuel branch.2.1 (depth + 1) branch.2.2.1 branch.2.2.2

def evansActions (dice : List Nat) : List TakeAction :=
  evansActionsF (dice.length + 1) dice 0 false false

/-! Concrete strategies used by witnesses. -/

/-- A strategy that never wants to roll and never takes anything. -/
def stratNever : Strat := ⟨fun _ _ _ _ => false, fun _ => []⟩

/-- Never rolls voluntarily; always proposes the thousand combo. -/
def stratThousand : Strat := ⟨fun _ _ _ _ => false, fun _ => [.takeThousandCombo]⟩

/-- Never rolls voluntarily; proposes the thousand and the 500 combo. -/
def stratHot : Strat :=
  ⟨fun _ _ _ _ => false, fun _ => [.takeThousandCombo, .takeFiveHundredCombo]⟩

/-! ## Two-player driver (`src/simulate.py`)

Dice randomness is supplied as a stream: `rolls` lists, in order, the dice
produced by successive `roll_dice` calls.  `WINNING_SCORE = 10000`,
`MIN_FIRST_BANK = 1000`. -/

/-- `can_bank = total_score > 0 or current_score >= MIN_FIRST_BANK`. -/
def canBankSim (total current : Nat) : Bool :=
  decide (0 < total) || decide (1000 ≤ current)

/-- The `should_roll` resolution at the top of `play_turn`: the strategy's
answer, overridden to `true` when not yet on the board below the minimum,
then overridden to `false` when banking would win. -/
def resolveShouldRollSim (total current : Nat) (stratSays : Bool) : Bool :=
  let s1 := if total = 0 ∧ current < 1000 then true else stratSays
  if 10000 ≤ total + current then false else s1

/-- Outcome of rolling once inside `play_turn`. -/
inductive RollStep
  | bust
  | fault
  | cont (current numDice : Nat)
deriving DecidableEq, Repr

/-- One roll of `play_turn`: score the dice, return 0 on a blown roll, apply
the strategy's actions (an impossible take is the fatal `fault`), accumulate
the points and reset the dice count to 6 when all dice were consumed
("hot dice"). -/
def rollStepSim (strat : Strat) (dice : List Nat) (current : Nat) : RollStep :=
  let sc := scorerInit dice
  if isBlown sc then .bust
  else
    match applyActs sc (strat.actions dice) with
    | none => .fault
    | some (score, sc') =>
      let nd := numRemainingDice sc'
      .cont (current + score) (if nd = 0 then 6 else nd)

/-- `play_turn(strategy, total_score)`: returns the points banked this turn
(0 on a bust) together with the unconsumed part of the roll stream; `none`
when the stream runs dry or a take faults. -/
def playTurn (strat : Strat) (total current numDice : Nat)
    (rolls : List (List Nat)) : Option (Nat × List (List Nat)) :=
  let sr := resolveShouldRollSim total current (strat.shouldRoll 0 total numDice current)
  if sr = false ∧ 0 < current ∧ canBankSim total current = true then
    some (current, rolls)
  else
    match rolls with
    | [] => none
    | dice :: rest =>
      match rollStepSim strat dice current with
      | .bust => some (0, rest)
      | .fault => none
      | .cont current2 nd2 => playTurn strat total current2 nd2 rest

/-- `GameResult` of `simulate.py`. -/
structure GameRes where
  winner : Nat
  score1 : Nat
  score2 : Nat
  turns : Nat
deriving DecidableEq, Repr

/-- `play_game(strat1, strat2)`: alternate turns until a banked score reaches
10000; the `fuel` bounds the number of turns (the Python loop is unbounded
but almost surely finite). -/
def playGame (st1 st2 : Strat) (fuel sc1 sc2 turn totalTurns : Nat)
    (rolls : List (List Nat)) : Option GameRes :=
  match fuel with
  | 0 => none
  | f + 1 =>
    let st := if turn = 0 then st1 else st2
    let myScore := if turn = 0 then sc1 else sc2
    match playTurn st myScore 0 6 rolls with
    | none => none
    | some (pts, rest) =>
      let my2 := myScore + pts
      let sc1' := if turn = 0 then my2 else sc1
      let sc2' := if turn = 0 then sc2 else my2
      if 10000 ≤ my2 then some ⟨turn, sc1', sc2', totalTurns + 1⟩
      else playGame st1 st2 f sc1' sc2' (1 - turn) (totalTurns + 1) rest

/-! ## Single-player turn driver (`src/game.py`)

`YouBlewIt._play_turn` additionally records a trace of turn actions and,
after the strategy stops rolling, auto-scores the dice still on the table;
when that leaves zero dice and the game is not over it "rolls over" into a
recursive continuation of the same turn. -/

/-- `game_over = self.stop_score and current + total >= self.stop_score`
(`stop_score = None` and `stop_score = 0` are both falsy). -/
def gameOverG (stop : Option Nat) (total current : Nat) : Bool :=
  match stop with
  | none => false
  | some st => decide (st ≠ 0) && decide (st ≤ current + total)

/-- `YouBlewIt._should_roll`: forced roll when not on the board below 1000,
then forced stop when the stop score is reached, else the strategy's answer. -/
def shouldRollG (strat : Strat) (total : Nat) (stop : Option Nat)
    (turnNum remDice current : Nat) : Bool :=
  if total = 0 ∧ current < 1000 then true
  else if gameOverG stop total current then false
  else strat.shouldRoll turnNum total remDice current

/-- Entries of the `turn_actions` trace built by `_play_turn`. -/
inductive GAct
  | rolled (dice : List Nat)
  | took (a : TakeAction)
  | blewIt
  | adding (pts cur : Nat)
  | autoAdding (pts cur : Nat)
  | rolledOver
deriving DecidableEq, Repr

/-- Result of the `while self._should_roll(...)` loop of `_play_turn`. -/
inductive LoopRes
  | exited (current : Nat) (sc : Scorer) (rest : List (List Nat))
  | blown (rest : List (List Nat))
  | outOfRolls
  | fault
deriving Repr

/-- The rolling loop of `_play_turn`, threading the roll stream. -/
def playLoopG (strat : Strat) (total : Nat) (stop : Option Nat) (turnNum : Nat)
    (numDice current : Nat) (sc : Scorer) (rolls : List (List Nat)) :
    List GAct × LoopRes :=
    if shouldRollG strat total stop turnNum numDice current then
      match rolls with
      | [] => ([], .outOfRolls)
      | dice :: rest =>
        let sc2 := scorerInit dice
        if isBlown sc2 then ([.rolled dice, .blewIt], .blown rest)
        else
          let acts := strat.actions dice
          match applyActs sc2 acts with
          | none => ([.rolled dice] ++ acts.map .took, .fault)
          | some (score, sc3) =>
            let current2 := current + score
            let nd := numRemainingDice sc3
            let nd2 := if nd = 0 then 6 else nd
            let rec2 := playLoopG strat total stop turnNum nd2 current2 sc3 rest
            (([.rolled dice] ++ acts.map .took ++ [.adding score current2]) ++ rec2.1, rec2.2)
    else ([], .exited current sc rolls)

/-- `YouBlewIt._play_turn(turn_num, current_score)`: run the loop from 6 dice
and an empty scorer, then auto-add `raw_score` of whatever the last scorer
left on the table, and recurse ("rolled over") when no dice remain and the
game is not over.  The `fuel` bounds the rolled-over recursion depth; the
trace collected so far is returned even when fuel runs out (`none` score). -/
def playTurnG (strat : Strat) (total : Nat) (stop : Option Nat)
    (fuel turnNum current0 : Nat) (rolls : List (List Nat)) :
    Option Nat × List GAct :=
  match fuel with
  | 0 => (none, [])
  | f + 1 =>
    match playLoopG strat total stop turnNum 6 current0 (scorerInit []) rolls with
    | (tr, .outOfRolls) => (none, tr)
    | (tr, .fault) => (none, tr)
    | (tr, .blown _) => (some 0, tr)
    | (tr, .exited current sc rest) =>
      let dice := makeRemainingDice sc
      match rawScore (scorerInit dice) with
      | none => (none, tr)
      | some (numRem, raw) =>
        let current2 := current + raw
        let tr2 := tr ++ [.autoAdding raw current2]
        if numRem = 0 ∧ gameOverG stop total current2 = false then
          let rec2 := playTurnG strat total stop f turnNum current2 rest
          (rec2.1, tr2 ++ [.rolledOver] ++ rec2.2)
        else (some current2, tr2)

/-! ## Decision-surface adapter, single-player (`src/gym_env/you_blew_it_v2.py`)

The six dice live in a fixed-size list with 0 marking a taken die.  `step`
takes the external action; the dice produced by the RNG inside a roll action
are supplied through the `fresh` parameter. -/

structure V2State where
  dice : List Nat
  mustRoll : Bool
  justRolled : Bool
  blown : Bool
  score : Nat
  unbanked : Nat
  maxScore : Nat
deriving DecidableEq, Repr

/-- `score_for_action` (identical in both env files). -/
def scoreForAction (action : Nat) : Nat :=
  if action = 0 then 1
  else if action = 1 then 1000
  else if action ≤ 6 then action * 100
  else if action = 7 then 50
  else if action = 8 then 100
  else 0

/-- `_has_num_dice(number, num_dice)`. -/
def hasNumDice (dice : List Nat) (number numDice : Nat) : Bool :=
  decide (numDice ≤ (dice.filter (fun x => x = number)).length)

/-- Zero out the first `n` occurrences of `x` (the index walk of
`_remove_dice`). -/
def zeroFirst : List Nat → Nat → Nat → List Nat
  | [], _, _ => []
  | d :: rest, x, n =>
    if n = 0 then d :: rest
    else if d = x then 0 :: zeroFirst rest x (n - 1)
    else d :: zeroFirst rest x n

/-- `_remove_dice(die_number, number_of_die)`: zero the dice and set
`must_roll` when the table is empty. -/
def removeDiceV2 (s : V2State) (dieNumber numOfDie : Nat) : V2State :=
  let dice' := zeroFirst s.dice dieNumber numOfDie
  { s with dice := dice', mustRoll := decide (dice'.sum = 0) }

/-- `_is_blown` of the env files: never blown in a must-roll state, never
blown with a 1 or a 5 or an empty table, otherwise blown iff every face
present appears fewer than 3 times. -/
def isBlownEnv (dice : List Nat) (mustRoll : Bool) : Bool :=
  if mustRoll then false
  else if decide (0 < dice.count 1) || decide (0 < dice.count 5) then false
  else if dice.all (fun x => x = 0) then false
  else decide (∀ x ∈ dice, x ≠ 0 → dice.count x < 3)

/-- `_roll_remaining`: reroll the non-zero dice, drawing from `fresh` in
position order. -/
def rollRemaining : List Nat → List Nat → List Nat
  | [], _ => []
  | d :: rest, fresh =>
    if d ≠ 0 then
      match fresh with
      | [] => d :: rollRemaining rest []
      | f :: fs => f :: rollRemaining rest fs
    else d :: rollRemaining rest fresh

/-- `_roll`: reroll remaining dice (or all six when in must-roll state), then
recompute `must_roll` and `blown`, resetting the turn on a bust. -/
def rollV2 (s : V2State) (fresh : List Nat) : V2State :=
  let dice' := if s.mustRoll = false then rollRemaining s.dice fresh else fresh.take 6
  let mr := decide (dice'.sum = 0)
  let bl := isBlownEnv dice' mr
  if bl then
    { s with dice := dice', mustRoll := true, blown := true, unbanked := 0, justRolled := false }
  else { s with dice := dice', mustRoll := mr, blown := bl }

/-- `legal_actions` (identical logic in both env files): only roll when blown
or in must-roll state; otherwise bank (if on the board or above the get-on-
board minimum), every triple present, single five, single one, and roll
unless just rolled. -/
def legalActionsV2 (s : V2State) : List Nat :=
  if s.blown || s.mustRoll then [9]
  else
    (if decide (0 < s.unbanked) && (decide (0 < s.score) || decide (1000 ≤ s.unbanked))
      then [0] else []) ++
    (if hasNumDice s.dice 1 3 then [1] else []) ++
    (if hasNumDice s.dice 2 3 then [2] else []) ++
    (if hasNumDice s.dice 3 3 then [3] else []) ++
    (if hasNumDice s.dice 4 3 then [4] else []) ++
    (if hasNumDice s.dice 5 3 then [5] else []) ++
    (if hasNumDice s.dice 6 3 then [6] else []) ++
    (if hasNumDice s.dice 5 1 then [7] else []) ++
    (if hasNumDice s.dice 1 1 then [8] else []) ++
    (if !s.justRolled then [9] else [])

/-- The state produced by `reset()`. -/
def v2Reset : V2State :=
  { dice := [0, 0, 0, 0, 0, 0], mustRoll := true, justRolled := false,
    blown := false, score := 0, unbanked := 0, maxScore := 10000 }

/-- What `step` returns (the observation is a pure function of the state and
is omitted here). -/
structure V2Out where
  state : V2State
  reward : Int
  terminated : Bool
  truncated : Bool
  reason : Option String
deriving DecidableEq, Repr

/-- `_illegal_move(reason)`: reset, fixed `-1` penalty, episode terminated. -/
def v2Illegal (reason : String) : V2Out :=
  { state := v2Reset, reward := -1, terminated := true, truncated := false,
    reason := some reason }

/-- `YouBlewItV2Env.step(action)`.  Note the bank branch (`action == 0`) is
executed without consulting `legal_actions`. -/
def v2Step (s : V2State) (action : Nat) (fresh : List Nat) : V2Out :=
  if 10 ≤ action then v2Illegal "no such action"
  else if action = 9 then
    if s.justRolled then v2Illegal "rolled twice in a row without blowing it"
    else
      let s1 := rollV2 { s with justRolled := true } fresh
      { state := s1, reward := 0, terminated := false, truncated := false, reason := none }
  else
    let s0 := { s with justRolled := false }
    if s0.mustRoll then v2Illegal "in must roll state"
    else if action = 0 then
      let banked := s0.unbanked
      let s1 := { s0 with score := s0.score + s0.unbanked, unbanked := 0, mustRoll := true }
      { state := s1, reward := (banked : Int),
        terminated := decide (s1.maxScore ≤ s1.score), truncated := false, reason := none }
    else if 1 ≤ action ∧ action ≤ 6 then
      if hasNumDice s0.dice action 3 = false then
        v2Illegal "tried to take a combo that was not there"
      else
        let s1 := removeDiceV2 s0 action 3
        { state := { s1 with unbanked := s1.unbanked + scoreForAction action },
          reward := 0, terminated := false, truncated := false, reason := none }
    else if action = 7 ∨ action = 8 then
      let number := if action = 7 then 5 else 1
      if hasNumDice s0.dice number 1 = false then
        v2Illegal "tried to take a die that was not there"
      else
        let s1 := removeDiceV2 s0 number 1
        { state := { s1 with unbanked := s1.unbanked + scoreForAction action },
          reward := 0, terminated := false, truncated := false, reason := none }
    else v2Illegal "unknown action"

/-! ## Decision-surface adapter, 1v1 (`src/gym_env/you_blew_it_1v1.py`)

Only the observation encoding is needed here; `legal_actions` has the same
body as the single-player env. -/

structure Env1v1State where
  dice : List Nat
  mustRoll : Bool
  justRolled : Bool
  blown : Bool
  score : Nat
  oppScore : Nat
  unbanked : Nat
deriving DecidableEq, Repr

/-- `score_to_bucket(score) = min(score // 2000, 4)`. -/
def scoreToBucket (score : Nat) : Nat := min (score / 2000) 4

/-- `num_remaining_dice` property. -/
def numNonzero (dice : List Nat) : Nat := (dice.filter (fun x => x ≠ 0)).length

/-- `legal_actions` of the 1v1 env (same body as `legalActionsV2`). -/
def legalActions1v1 (s : Env1v1State) : List Nat :=
  if s.blown || s.mustRoll then [9]
  else
    (if decide (0 < s.unbanked) && (decide (0 < s.score) || decide (1000 ≤ s.unbanked))
      then [0] else []) ++
    (if hasNumDice s.dice 1 3 then [1] else []) ++
    (if hasNumDice s.dice 2 3 then [2] else []) ++
    (if hasNumDice s.dice 3 3 then [3] else []) ++
    (if hasNumDice s.dice 4 3 then [4] else []) ++
    (if hasNumDice s.dice 5 3 then [5] else []) ++
    (if hasNumDice s.dice 6 3 then [6] else []) ++
    (if hasNumDice s.dice 5 1 then [7] else []) ++
    (if hasNumDice s.dice 1 1 then [8] else []) ++
    (if !s.justRolled then [9] else [])

/-- Pointwise update of an observation vector modelled as `Nat → Nat`
(`state[i] = v` on the numpy array). -/
def updAt (f : Nat → Nat) (i v : Nat) : Nat → Nat :=
  fun j => if j = i then v else f j

/-- `YouBlewIt1v1Env._get_observation`, slot for slot: a 25-slot vector with
the dice-remaining one-hot at `remaining - 1`, then — unless the legality set
is exactly `[9]`, in which case only slot 14 is set — slot `action + 5` for
every legal action followed by zeroing slot 14, and finally the two score
buckets at `15 + bucket(score)` and `20 + bucket(opp)`. -/
def obs1v1 (s : Env1v1State) : Nat → Nat :=
  let base : Nat → Nat := fun _ => 0
  let r := numNonzero s.dice
  let f1 := if 0 < r then updAt base (r - 1) 1 else base
  let acts := legalActions1v1 s
  let f2 :=
    if acts = [9] then updAt f1 14 1
    else updAt (acts.foldl (fun f a => updAt f (a + 5) 1) f1) 14 0
  updAt (updAt f2 (15 + scoreToBucket s.score) 1) (20 + scoreToBucket s.oppScore) 1

/-- Modelled from the spec's words for claim C9 (refinement comparison only,
not code): slots 0-5 dice-remaining one-hot, slots 6-14 the legal actions
shifted by +6 with slot 14 as the must-roll flag, slots 15-19 the acting
player's banked-score bucket, slots 20-24 the opponent's bucket. -/
def obsClaim1v1 (s : Env1v1State) : Nat → Nat := fun i =>
  let acts := legalActions1v1 s
  let r := numNonzero s.dice
  if i < 6 then (if r = i + 1 then 1 else 0)
  else if i < 14 then (if (i - 6) ∈ acts then 1 else 0)
  else if i = 14 then (if s.mustRoll then 1 else 0)
  else if i < 20 then (if i = 15 + scoreToBucket s.score then 1 else 0)
  else if i < 25 then (if i = 20 + scoreToBucket s.oppScore then 1 else 0)
  else 0

/-- The amended layout for claim C9 (the layout `obs1v1` actually realises):
legal actions sit at slot `action + 5` — bank shares slot 5 with the
six-dice-remaining flag — and slot 14 is set exactly when the legality set
is `[9]` (the case where a roll is the only legal move). -/
def obsAmended1v1 (s : Env1v1State) : Nat → Nat := fun i =>
  let acts := legalActions1v1 s
  let r := numNonzero s.dice
  if i ≤ 13 then
    (if (i < 6 ∧ r = i + 1) ∨ (acts ≠ [9] ∧ 5 ≤ i ∧ (i - 5) ∈ acts) then 1 else 0)
  else if i = 14 then (if acts = [9] then 1 else 0)
  else if i ≤ 19 then (if i = 15 + scoreToBucket s.score then 1 else 0)
  else (if i = 20 + scoreToBucket s.oppScore then 1 else 0)

/-! ## Claims -/

/-- C1. For every roll, `Scorer.is_blown` returns false iff some face 2-6 has
count >= 3, or the roll holds a 1, or a 5; and `is_blown` on
`[2,2,3,4,6,6]` is true. -/
theorem claim1_is_blown_characterisation :
    (∀ dice : List Nat,
      (isBlown (scorerInit dice) = false ↔
        (∃ f, 2 ≤ f ∧ f ≤ 6 ∧ 3 ≤ dice.count f) ∨
          0 < dice.count 1 ∨ 0 < dice.count 5)) ∧
    isBlown (scorerInit [2, 2, 3, 4, 6, 6]) = true := by
  constructor
  · intro dice
    have hiff : isBlown (scorerInit dice) = false ↔
        (3 ≤ dice.count 2 ∨ 3 ≤ dice.count 3 ∨ 3 ≤ dice.count 4 ∨
          3 ≤ dice.count 6 ∨ dice.count 1 ≠ 0 ∨ dice.count 5 ≠ 0) := by
      simp [isBlown, scorerInit, hasTwoHundredCombo, hasThreeHundredCombo,
        hasFourHundredCombo, hasSixHundredCombo, hasOnes, hasFifties, or_assoc]
      omega
    rw [hiff]
    constructor
    · rintro (h | h | h | h | h | h)
      · exact Or.inl ⟨2, by omega, by omega, h⟩
      · exact Or.inl ⟨3, by omega, by omega, h⟩
      · exact Or.inl ⟨4, by omega, by omega, h⟩
      · exact Or.inl ⟨6, by omega, by omega, h⟩
      · exact Or.inr (Or.inl (by omega))
      · exact Or.inr (Or.inr (by omega))
    · rintro (⟨f, h2, h6, h3⟩ | h1 | h5)
      · interval_cases f
        · exact Or.inl h3
        · exact Or.inr (Or.inl h3)
        · exact Or.inr (Or.inr (Or.inl h3))
        · exact Or.inr (Or.inr (Or.inr (Or.inr (Or.inr (by omega)))))
        · exact Or.inr (Or.inr (Or.inr (Or.inl h3)))
      · exact Or.inr (Or.inr (Or.inr (Or.inr (Or.inl (by omega)))))
      · exact Or.inr (Or.inr (Or.inr (Or.inr (Or.inr (by omega)))))
  · decide

/-- C2 (amended). Every take operation fails (the `AssertionError`, modelled
`none`, raised before any mutation — the roll is unchanged) exactly when
fewer dice of the required face remain than the group consumes; on success it
removes exactly the consumed dice and returns 1000 for Triple(1), face x 100
for the other triples, and 100 per one / 50 per five for the singles takes —
except that a `take_ones`/`take_fifties` call consuming exactly 3 dice
returns the triple value (1000 resp. 500) instead. -/
theorem claim2_take_contract : ∀ (s : Scorer) (n : Nat),
    (takeThousandCombo s = none ↔ s.v1 < 3) ∧
    (3 ≤ s.v1 → takeThousandCombo s = some (1000, { s with v1 := s.v1 - 3 })) ∧
    (takeTwoHundredCombo s = none ↔ s.v2 < 3) ∧
    (3 ≤ s.v2 → takeTwoHundredCombo s = some (200, { s with v2 := s.v2 - 3 })) ∧
    (takeThreeHundredCombo s = none ↔ s.v3 < 3) ∧
    (3 ≤ s.v3 → takeThreeHundredCombo s = some (300, { s with v3 := s.v3 - 3 })) ∧
    (takeFourHundredCombo s = none ↔ s.v4 < 3) ∧
    (3 ≤ s.v4 → takeFourHundredCombo s = some (400, { s with v4 := s.v4 - 3 })) ∧
    (takeFiveHundredCombo s = none ↔ s.v5 < 3) ∧
    (3 ≤ s.v5 → takeFiveHundredCombo s = some (500, { s with v5 := s.v5 - 3 })) ∧
    (takeSixHundredCombo s = none ↔ s.v6 < 3) ∧
    (3 ≤ s.v6 → takeSixHundredCombo s = some (600, { s with v6 := s.v6 - 3 })) ∧
    (takeOnes s n = none ↔ s.v1 < n) ∧
    (n ≤ s.v1 → n = 3 → takeOnes s n = some (1000, { s with v1 := s.v1 - n })) ∧
    (n ≤ s.v1 → n ≠ 3 → takeOnes s n = some (100 * n, { s with v1 := s.v1 - n })) ∧
    (takeFifties s n = none ↔ s.v5 < n) ∧
    (n ≤ s.v5 → n = 3 → takeFifties s n = some (500, { s with v5 := s.v5 - n })) ∧
    (n ≤ s.v5 → n ≠ 3 → takeFifties s n = some (50 * n, { s with v5 := s.v5 - n })) := by
  intro s n
  refine ⟨?_, ?_, ?_, ?_, ?_, ?_, ?_, ?_, ?_, ?_, ?_, ?_, ?_, ?_, ?_, ?_, ?_, ?_⟩ <;>
    (intros
     simp only [takeThousandCombo, takeTwoHundredCombo, takeThreeHundredCombo,
       takeFourHundredCombo, takeFiveHundredCombo, takeSixHundredCombo,
       takeOnes, takeFifties, takeGen, getV, setV]
     split_ifs <;> first | rfl | omega | simp_all)

/-- C2 counterexample: the claim as stated requires `take_ones(3)` to score
3 x 100 = 300, but the code's `num_to_take == 3` branch fires first and
returns the Triple(1) value 1000 (the dice themselves are removed as the
claim says). -/
theorem claim2_counterexample :
    takeOnes (scorerInit [1, 1, 1]) 3 =
      some (1000, ⟨0, 0, 0, 0, 0, 0, true, false, false, false, false, false⟩) ∧
    (1000 : Nat) ≠ 3 * 100 := by decide

/-- C2 witness: the contract applied at a concrete scorer. -/
theorem claim2_witness :
    takeFifties (scorerInit [5, 5]) 2 =
      some (100, ⟨0, 0, 0, 0, 0, 0, false, false, false, false, false, false⟩) := by
  obtain ⟨-, -, -, -, -, -, -, -, -, -, -, -, -, -, -, -, -, hf⟩ :=
    claim2_take_contract (scorerInit [5, 5]) 2
  rw [hf (by decide) (by decide)]
  decide

/-- C3. Whenever the acting player's banked score is 0 and the unbanked score
is below the get-on-board minimum (1000), the roll decision is forced to
true regardless of the strategy's `should_roll` answer — in both the
single-player driver (`YouBlewIt._should_roll`) and the two-player driver
(`play_turn` in `simulate.py`). -/
theorem claim3_forced_roll :
    ∀ (strat : Strat) (stop : Option Nat) (turnNum remDice current : Nat) (ans : Bool),
      current < 1000 →
      shouldRollG strat 0 stop turnNum remDice current = true ∧
        resolveShouldRollSim 0 current ans = true := by
  intro strat stop turnNum remDice current ans h
  constructor
  · simp [shouldRollG, h]
  · simp only [resolveShouldRollSim]
    rw [if_neg (by omega), if_pos ⟨trivial, h⟩]

/-- C3 witness: banked 0, unbanked 900, strategy answering `false`. -/
theorem claim3_witness :
    shouldRollG stratNever 0 none 0 6 900 = true ∧
      resolveShouldRollSim 0 900 false = true :=
  claim3_forced_roll stratNever none 0 6 900 false (by decide)

/-- C4. In the two-player game: (a) at any decision point with
`banked + unbanked >= 10000` (and the game still running, `banked < 10000`)
the turn banks immediately, consuming no further rolls; (b) the moment the
acting player's banked score reaches 10000 the game returns that player as
winner right away — the turn counter advances by exactly one and no other
player takes a turn. -/
theorem claim4_forced_bank_and_instant_win :
    (∀ (strat : Strat) (total current numDice : Nat) (rolls : List (List Nat)),
      total < 10000 → 10000 ≤ total + current →
      playTurn strat total current numDice rolls = some (current, rolls)) ∧
    (∀ (st1 st2 : Strat) (fuel sc1 sc2 turn totalTurns pts : Nat)
        (rolls rest : List (List Nat)),
      playTurn (if turn = 0 then st1 else st2) (if turn = 0 then sc1 else sc2) 0 6 rolls
        = some (pts, rest) →
      10000 ≤ (if turn = 0 then sc1 else sc2) + pts →
      playGame st1 st2 (fuel + 1) sc1 sc2 turn totalTurns rolls
        = some ⟨turn, (if turn = 0 then sc1 + pts else sc1),
            (if turn = 0 then sc2 else sc2 + pts), totalTurns + 1⟩) := by
  constructor
  · intro strat total current numDice rolls h1 h2
    have hsr : resolveShouldRollSim total current
        (strat.shouldRoll 0 total numDice current) = false := by
      simp only [resolveShouldRollSim]
      rw [if_pos h2]
    have hcb : canBankSim total current = true := by
      simp only [canBankSim]
      rcases Nat.eq_zero_or_pos total with h | h
      · subst h
        simp
        omega
      · simp
        omega
    rw [playTurn.eq_def]
    rw [hsr]
    rw [if_pos ⟨rfl, by omega, hcb⟩]
  · intro st1 st2 fuel sc1 sc2 turn totalTurns pts rolls rest h1 h2
    rw [playGame.eq_def]
    split
    · omega
    · dsimp only []
      rw [h1]
      dsimp only []
      rw [if_pos h2]
      by_cases ht : turn = 0 <;> simp [ht]

/-- C4 witness: player 0 at 9500 banks a 1000-point roll and wins at once. -/
theorem claim4_witness :
    playTurn stratThousand 9500 600 6 [] = some (600, []) ∧
    playGame stratThousand stratThousand 1 9500 0 0 0 [[1, 1, 1, 2, 3, 4]]
      = some ⟨0, 10500, 0, 1⟩ := by
  constructor
  · exact claim4_forced_bank_and_instant_win.1 stratThousand 9500 600 6 []
      (by decide) (by decide)
  · have h := claim4_forced_bank_and_instant_win.2 stratThousand stratThousand 0
      9500 0 0 0 1000 [[1, 1, 1, 2, 3, 4]] [] (by decide) (by decide)
    simpa using h

/-- C5 counterexample: a turn ([1,1,1,5,5,5], strategy takes everything) in
which all six dice are consumed without busting, yet no roll is forced: the
hot-dice reset happens (`cont 1500 6`), and with only that single roll in the
stream the turn still completes by banking 1500 — a forced roll would have
exhausted the stream and produced `none`. -/
theorem claim5_counterexample :
    rollStepSim stratHot [1, 1, 1, 5, 5, 5] 0 = .cont 1500 6 ∧
    playTurn stratHot 0 0 6 [[1, 1, 1, 5, 5, 5]] = some (1500, []) := by decide

/-- C5 (amended). When a roll's takes consume every die without busting, the
dice in play reset to 6 and the unbanked score carries the take points over
the reset unchanged (no roll is forced: the next decision is the ordinary
bank/roll resolution). -/
theorem claim5_hot_dice_reset :
    ∀ (strat : Strat) (dice : List Nat) (current score : Nat) (sc' : Scorer),
      isBlown (scorerInit dice) = false →
      applyActs (scorerInit dice) (strat.actions dice) = some (score, sc') →
      numRemainingDice sc' = 0 →
      rollStepSim strat dice current = .cont (current + score) 6 := by
  intro strat dice current score sc' hb happ hnd
  simp only [rollStepSim, hb, happ, hnd]
  simp

/-- C5 witness: the hot-dice reset applied to the concrete roll
`[1,1,1,5,5,5]` with 7 unbanked points already accumulated. -/
theorem claim5_witness :
    rollStepSim stratHot [1, 1, 1, 5, 5, 5] 7 = .cont 1507 6 :=
  claim5_hot_dice_reset stratHot [1, 1, 1, 5, 5, 5] 7 1500
    ⟨0, 0, 0, 0, 0, 0, true, false, false, false, true, false⟩
    (by decide) (by decide) (by decide)

/-- C6. The roll `[2,2,2,3,4,6]` is not blown, yet `BasicStrategy.actions`,
`MomsStrategy.actions` and `EvansStrategy.actions` all return the empty
list on it: their `has_two_hundred_combo` branch consumes the triple of 2s
without appending the action name. -/
theorem claim6_empty_actions_on_nonblown :
    isBlown (scorerInit [2, 2, 2, 3, 4, 6]) = false ∧
    basicActions [2, 2, 2, 3, 4, 6] = [] ∧
    momsActions [2, 2, 2, 3, 4, 6] = [] ∧
    evansActions [2, 2, 2, 3, 4, 6] = [] := by decide

/-- Closed form of the 200-combo take. -/
theorem takeTwoHundredCombo_eq (s : Scorer) :
    takeTwoHundredCombo s =
      if s.v2 < 3 then none else some (200, { s with v2 := s.v2 - 3 }) := by
  simp [takeTwoHundredCombo, takeGen, getV, setV]

/-- Closed form of taking all remaining ones. -/
theorem takeOnes_all_eq (s : Scorer) :
    takeOnes s s.v1 =
      some (if s.v1 = 3 then 1000 else 100 * s.v1, { s with v1 := 0 }) := by
  simp [takeOnes, takeGen, getV, setV]
  split <;> rfl

/-- Inside `raw_score` the loose-ones step and the 200-combo step commute:
they touch disjoint faces, so the interleaving the code uses gives the same
chain state as the spec's priority order. -/
theorem rsStep_ones_two_comm (x : Option (Nat × List Nat × Scorer)) :
    rsStep hasTwoHundredCombo takeTwoHundredCombo
      (rsStep hasOnes (fun t => takeOnes t (numOnes t)) x)
    = rsStep hasOnes (fun t => takeOnes t (numOnes t))
      (rsStep hasTwoHundredCombo takeTwoHundredCombo x) := by
  rcases x with - | ⟨score, rem, s⟩
  · rfl
  · simp only [rsStep, numOnes, takeOnes_all_eq, takeTwoHundredCombo_eq,
      hasOnes, hasTwoHundredCombo]
    split_ifs <;> simp_all [makeRemainingDice] <;>
      first
        | omega
        | (rw [if_neg (by omega)]
           simp [makeRemainingDice]
           try omega)

/-- C7 (amended). `raw_score` applies each scoring group at most once, with
availability frozen at the roll's initial counts: the thousand combo first,
then the 600/500/400/300/200 triples from highest face to lowest, then all
loose ones, then all loose fives — the code's actual interleaving (loose
ones before the 200 combo) is extensionally the same chain; on
`[1,1,1,5,5,5]` it returns 0 leftover dice and 1500 points. -/
theorem claim7_raw_score_priority :
    (∀ s : Scorer, rawScore s = rawScoreAmended s) ∧
    rawScore (scorerInit [1, 1, 1, 5, 5, 5]) = some (0, 1500) := by
  constructor
  · intro s
    simp only [rawScore, rawScoreAmended, rsStep_ones_two_comm]
  · decide

/-- C7 counterexample: on `[2,2,2,2,2,2]` the greedy reading of the claim
(apply every group available on the live counts) scores two triples of 2s,
`(0, 400)`, but `raw_score` — whose combo flags are frozen at construction
and fire at most once — returns `(3, 200)`, leaving three scorable 2s (the
200 combo is still available on them) counted as leftovers. -/
theorem claim7_counterexample :
    rawScore (scorerInit [2, 2, 2, 2, 2, 2]) = some (3, 200) ∧
    specRawScoreGreedy [2, 2, 2, 2, 2, 2] = (0, 400) ∧
    hasTwoHundredCombo (scorerInit [2, 2, 2]) = true := by decide

/-- C8 counterexample: banking (action 0) while it is NOT in the legality set
(score 0, unbanked 300 — below the get-on-board minimum, so `legal_actions`
is `[9]`) is silently performed: `step` banks the 300 points, returns reward
300 (not the -1 penalty), does not terminate the episode, does not reset the
state, and reports no reason string. -/
theorem claim8_counterexample :
    (0 ∉ legalActionsV2
      { dice := [2, 3, 0, 0, 0, 0], mustRoll := false, justRolled := false,
        blown := false, score := 0, unbanked := 300, maxScore := 10000 }) ∧
    v2Step
      { dice := [2, 3, 0, 0, 0, 0], mustRoll := false, justRolled := false,
        blown := false, score := 0, unbanked := 300, maxScore := 10000 } 0 []
      = { state := { dice := [2, 3, 0, 0, 0, 0], mustRoll := true, justRolled := false,
                     blown := false, score := 300, unbanked := 0, maxScore := 10000 },
          reward := 300, terminated := false, truncated := false, reason := none } := by
  decide

/-- C8 (amended). The adapter rejects — with the fixed -1 penalty, episode
termination, a state reset and a structured reason string — exactly: action
indices outside 0..9 ("no such action"), rolling again while `just_rolled`
("rolled twice in a row without blowing it"), any non-roll action in a
must-roll state ("in must roll state"), taking an absent triple ("tried to
take a combo that was not there") and taking an absent single ("tried to
take a die that was not there"); but the bank action (0) is applied without
any legality check, so an unbankable bank is executed rather than rejected. -/
theorem claim8_illegal_move_handling :
    ∀ (s : V2State) (a : Nat) (fresh : List Nat),
      (10 ≤ a → v2Step s a fresh = v2Illegal "no such action") ∧
      (a = 9 → s.justRolled = true →
        v2Step s a fresh = v2Illegal "rolled twice in a row without blowing it") ∧
      (a ≤ 8 → s.mustRoll = true →
        v2Step s a fresh = v2Illegal "in must roll state") ∧
      (1 ≤ a → a ≤ 6 → s.mustRoll = false → hasNumDice s.dice a 3 = false →
        v2Step s a fresh = v2Illegal "tried to take a combo that was not there") ∧
      ((a = 7 ∨ a = 8) → s.mustRoll = false →
        hasNumDice s.dice (if a = 7 then 5 else 1) 1 = false →
        v2Step s a fresh = v2Illegal "tried to take a die that was not there") ∧
      (a = 0 → s.mustRoll = false →
        v2Step s a fresh =
          { state := { s with justRolled := false, mustRoll := true,
                                score := s.score + s.unbanked, unbanked := 0 },
            reward := (s.unbanked : Int),
            terminated := decide (s.maxScore ≤ s.score + s.unbanked),
            truncated := false, reason := none }) := by
  intro s a fresh
  refine ⟨?_, ?_, ?_, ?_, ?_, ?_⟩
  · intro h
    simp only [v2Step]
    rw [if_pos h]
  · intro h9 hjr
    subst h9
    simp only [v2Step, hjr]
    norm_num
  · intro h8 hmr
    simp only [v2Step, hmr]
    rw [if_neg (by omega), if_neg (by omega)]
    simp
  · intro hlo hhi hmr hnd
    simp only [v2Step, hmr, hnd]
    rw [if_neg (by omega), if_neg (by omega)]
    simp only [Bool.false_eq_true, if_false]
    rw [if_neg (by omega), if_pos ⟨hlo, hhi⟩]
    simp
  · intro h78 hmr hnd
    simp only [v2Step, hmr]
    rw [if_neg (by omega), if_neg (by omega)]
    simp only [Bool.false_eq_true, if_false]
    rw [if_neg (by omega), if_neg (by omega), if_pos h78]
    simp only [hnd]
    simp
  · intro h0 hmr
    subst h0
    simp only [v2Step, hmr]
    norm_num

/-- C8 witness: a take attempted from the freshly reset (must-roll) state is
rejected with the "in must roll state" reason. -/
theorem claim8_witness :
    v2Step v2Reset 5 [] = v2Illegal "in must roll state" := by
  have h := (claim8_illegal_move_handling v2Reset 5 []).2.2.1
  exact h (by decide) (by decide)

/-- Value of the legal-action marking fold at a slot. -/
theorem foldUpd (acts : List Nat) (g : Nat → Nat) (j : Nat) :
    (acts.foldl (fun f a => updAt f (a + 5) 1) g) j =
      if (acts.any fun a => j = a + 5) then 1 else g j := by
  induction acts generalizing g with
  | nil => simp
  | cons a t ih =>
    simp only [List.foldl_cons, List.any_cons, ih]
    by_cases h : j = a + 5 <;> by_cases h2 : (t.any fun b => j = b + 5) = true <;>
      simp_all [updAt]

/-- Every member of an `if c then [x] else []` block is that `x`. -/
theorem mem_ite_singleton (c : Prop) [Decidable c] (x a : Nat)
    (h : a ∈ (if c then [x] else ([] : List Nat))) : a = x := by
  split at h <;> simp_all

/-- The legality set only holds action indices 0..9. -/
theorem mem_legalActions1v1_le (s : Env1v1State) : ∀ a ∈ legalActions1v1 s, a ≤ 9 := by
  intro a ha
  unfold legalActions1v1 at ha
  split at ha
  · simp_all
  · simp only [List.mem_append] at ha
    rcases ha with ((((((((h | h) | h) | h) | h) | h) | h) | h) | h) | h <;>
      have := mem_ite_singleton _ _ _ h <;> omega

/-- C9 (amended). For the real six-dice state space, the 25-slot observation
realises: slots 0-5 dice-remaining one-hot (slot `remaining - 1`), each legal
action `a` marked at slot `a + 5` (bank thus shares slot 5 with the
six-dice-remaining flag) except that slot 14 is set exactly when the legality
set is `[9]` (roll is the only legal move) and is zeroed otherwise, slots
15-19 the acting player's banked-score bucket (`min (score / 2000) 4`), and
slots 20-24 the opponent's bucket. -/
theorem claim9_observation_layout :
    ∀ (s : Env1v1State) (i : Nat),
      s.dice.length = 6 → obs1v1 s i = obsAmended1v1 s i := by
  intro s i hlen
  have hr : numNonzero s.dice ≤ 6 := by
    have h := List.length_filter_le (fun x => decide (x ≠ 0)) s.dice
    simpa [numNonzero, hlen] using h
  have hm : scoreToBucket s.score ≤ 4 := Nat.min_le_right _ _
  have ho : scoreToBucket s.oppScore ≤ 4 := Nat.min_le_right _ _
  by_cases hq : legalActions1v1 s = [9]
  · simp only [obs1v1, obsAmended1v1, updAt, hq, ite_apply]
    simp only [List.mem_singleton, ne_eq, not_true_eq_false, false_and, and_false,
      false_or, or_false, if_true, ite_true]
    split_ifs <;> omega
  · have hiff : ((legalActions1v1 s).any fun a => i = a + 5) = true ↔
        (5 ≤ i ∧ i ≤ 14 ∧ (i - 5) ∈ legalActions1v1 s) := by
      simp only [List.any_eq_true, decide_eq_true_eq]
      constructor
      · rintro ⟨a, ha, rfl⟩
        have h9 := mem_legalActions1v1_le s a ha
        exact ⟨by omega, by omega, by simpa using ha⟩
      · rintro ⟨h5, h14, hmem⟩
        exact ⟨i - 5, hmem, by omega⟩
    simp only [obs1v1, obsAmended1v1, updAt, ite_apply, foldUpd, hq, if_false, ne_eq,
      not_false_eq_true, true_and]
    by_cases hmem : (i - 5) ∈ legalActions1v1 s
    · simp only [hiff, hmem, and_true]
      split_ifs <;> omega
    · simp only [hiff, hmem, and_false]
      split_ifs <;> first | omega | assumption | simp_all

/-- C9 counterexample: with dice `[1,1,1,2,3,4]` just rolled (legal actions
`[1, 8]`), the observation marks action 1 at slot 6 (= 1 + 5), not at slot 7
(= 1 + 6) as the claimed "+6 shift" layout would require. -/
theorem claim9_counterexample :
    legalActions1v1
      { dice := [1, 1, 1, 2, 3, 4], mustRoll := false, justRolled := true,
        blown := false, score := 0, oppScore := 0, unbanked := 0 } = [1, 8] ∧
    obs1v1
      { dice := [1, 1, 1, 2, 3, 4], mustRoll := false, justRolled := true,
        blown := false, score := 0, oppScore := 0, unbanked := 0 } 6 = 1 ∧
    obs1v1
      { dice := [1, 1, 1, 2, 3, 4], mustRoll := false, justRolled := true,
        blown := false, score := 0, oppScore := 0, unbanked := 0 } 7 = 0 ∧
    obsClaim1v1
      { dice := [1, 1, 1, 2, 3, 4], mustRoll := false, justRolled := true,
        blown := false, score := 0, oppScore := 0, unbanked := 0 } 7 = 1 ∧
    obsClaim1v1
      { dice := [1, 1, 1, 2, 3, 4], mustRoll := false, justRolled := true,
        blown := false, score := 0, oppScore := 0, unbanked := 0 } 6 = 0 := by
  decide

/-- C9 witness: the realised layout evaluated at slot 6 of the same state. -/
theorem claim9_witness :
    obs1v1
      { dice := [1, 1, 1, 2, 3, 4], mustRoll := false, justRolled := true,
        blown := false, score := 0, oppScore := 0, unbanked := 0 } 6 =
    obsAmended1v1
      { dice := [1, 1, 1, 2, 3, 4], mustRoll := false, justRolled := true,
        blown := false, score := 0, oppScore := 0, unbanked := 0 } 6 :=
  claim9_observation_layout
    { dice := [1, 1, 1, 2, 3, 4], mustRoll := false, justRolled := true,
      blown := false, score := 0, oppScore := 0, unbanked := 0 } 6 (by decide)

/-- C10. A scorer over the empty dice list reports `is_blown` true, zero
remaining dice and `raw_score = (0, 0)`; and in the single-player turn driver
a strategy that declines the turn's very first roll (possible only once on
the board, `total != 0`, with no stop score) makes the turn auto-add exactly
those 0 points before anything else happens — the trace opens with
`auto-adding 0 0` and no dice were rolled before it. -/
theorem claim10_empty_scorer_decline :
    isBlown (scorerInit []) = true ∧
    numRemainingDice (scorerInit []) = 0 ∧
    rawScore (scorerInit []) = some (0, 0) ∧
    ∀ (strat : Strat) (total turnNum fuel : Nat) (rolls : List (List Nat)),
      total ≠ 0 →
      strat.shouldRoll turnNum total 6 0 = false →
      (playTurnG strat total none (fuel + 1) turnNum 0 rolls).2.head?
        = some (.autoAdding 0 0) := by
  refine ⟨by decide, by decide, by decide, ?_⟩
  intro strat total turnNum fuel rolls h0 h1
  have hsr : shouldRollG strat total none turnNum 6 0 = false := by
    simp [shouldRollG, h0, h1, gameOverG]
  rw [playTurnG.eq_def]
  simp only []
  rw [playLoopG.eq_def]
  rw [hsr]
  simp only [Bool.false_eq_true, if_false]
  simp only [gameOverG]
  rw [show rawScore (scorerInit (makeRemainingDice (scorerInit []))) = some (0, 0) from
    by decide]
  simp

/-- C10 witness: a player on the board (500 banked) whose strategy declines
immediately; the turn trace opens with the auto-added 0 points. -/
theorem claim10_witness :
    (playTurnG stratNever 500 none 1 0 0 []).2.head? = some (.autoAdding 0 0) :=
  claim10_empty_scorer_decline.2.2.2 stratNever 500 0 0 [] (by decide) (by decide)
